import Mathlib

/-!
Verification development for `dduckdns.py`, a Duck DNS dynamic-DNS update
client.  The script is shallowly embedded below: pure string manipulation
(`str.strip`, `repr`, `urllib.parse.urlencode`) is translated to executable
Lean functions, and the effectful parts (the IPv6-lookup HTTP GET, the update
HTTP GET, and the token subprocess) are parametrised by oracles that supply
each external response in sequence, with explicit call counters so that the
number and order of external calls is part of the model.
-/

namespace Dduckdns

/-! ## Python string primitives -/

/-- Characters removed by Python `str.strip()` (the ASCII whitespace set plus
the Latin-1 whitespace code points; identified by code point). -/
def pyIsSpace (c : Char) : Bool :=
  [32, 9, 10, 13, 11, 12, 28, 29, 30, 31, 133, 160].contains c.toNat

def pyStripList (cs : List Char) : List Char :=
  ((cs.dropWhile pyIsSpace).reverse.dropWhile pyIsSpace).reverse

/-- Python `str.strip()` with no arguments. -/
def pyStrip (s : String) : String :=
  ⟨pyStripList s.toList⟩

def backslashChar : Char := Char.ofNat 92

def squoteChar : Char := Char.ofNat 39

def dquoteChar : Char := Char.ofNat 34

def hexLower (n : Nat) : Char :=
  if n < 10 then Char.ofNat (48 + n) else Char.ofNat (87 + n)

def hexUpper (n : Nat) : Char :=
  if n < 10 then Char.ofNat (48 + n) else Char.ofNat (55 + n)

/-- How Python `repr` renders one character of a string, given the chosen
quote character: backslash and the quote are escaped, newline, carriage
return and tab get their two-character escapes, other non-printable
characters in the ASCII/Latin-1 control range become `\xhh`, and everything
else is kept literally. -/
def pyReprChar (q c : Char) : List Char :=
  if c = backslashChar then [backslashChar, backslashChar]
  else if c = q then [backslashChar, q]
  else if c = '\n' then [backslashChar, 'n']
  else if c = '\r' then [backslashChar, 'r']
  else if c = '\t' then [backslashChar, 't']
  else if c.toNat < 32 || (127 ≤ c.toNat && c.toNat ≤ 160) then
    [backslashChar, 'x', hexLower (c.toNat / 16), hexLower (c.toNat % 16)]
  else [c]

/-- Python `repr` of a string: single quotes unless the text contains a
single quote but no double quote. -/
def pyReprList (cs : List Char) : List Char :=
  let q := if cs.contains squoteChar && !(cs.contains dquoteChar)
           then dquoteChar else squoteChar
  q :: cs.flatMap (pyReprChar q) ++ [q]

def pyRepr (s : String) : String :=
  ⟨pyReprList s.toList⟩

/-! ## TOML values

`tomllib.loads` produces nested Python dicts/lists/strings/ints/bools.
(Floats and datetimes also exist in TOML but play no role in any claim and
are omitted from the value type.)  Dicts are modelled as association lists
in document order; TOML forbids duplicate keys. -/

inductive Toml where
  | str : String → Toml
  | bool : Bool → Toml
  | int : Int → Toml
  | arr : List Toml → Toml
  | table : List (String × Toml) → Toml

mutual

/-- Python `repr` of a parsed TOML value. -/
def pyReprToml : Toml → String
  | Toml.str s => pyRepr s
  | Toml.bool b => if b then "True" else "False"
  | Toml.int n => toString n
  | Toml.arr xs => "[" ++ String.intercalate ", " (pyReprTomlList xs) ++ "]"
  | Toml.table kvs =>
    "\x7b" ++ String.intercalate ", " (pyReprTomlKVs kvs) ++ "\x7d"

def pyReprTomlList : List Toml → List String
  | [] => []
  | x :: xs => pyReprToml x :: pyReprTomlList xs

def pyReprTomlKVs : List (String × Toml) → List String
  | [] => []
  | kv :: kvs => (pyRepr kv.1 ++ ": " ++ pyReprToml kv.2) :: pyReprTomlKVs kvs

end

/-- Python `str()` of a parsed TOML value (strings render as themselves,
containers as their `repr`). -/
def pyStr : Toml → String
  | Toml.str s => s
  | t => pyReprToml t

/-- Python truthiness of a parsed TOML value (`if settings.clear:`). -/
def pyTruthy : Toml → Bool
  | Toml.str s => !(s == "")
  | Toml.bool b => b
  | Toml.int n => !(n == 0)
  | Toml.arr xs => !xs.isEmpty
  | Toml.table kvs => !kvs.isEmpty

/-- Python `settings.ipv6 == "auto"`: equality of a dynamically typed value
with the string literal is true only for that exact string. -/
def Toml.isAuto : Toml → Bool
  | Toml.str s => s == "auto"
  | _ => false

/-! ## urllib.parse.urlencode -/

/-- UTF-8 encoding of one character, as a list of byte values. -/
def utf8Bytes (c : Char) : List Nat :=
  let n := c.toNat
  if n < 0x80 then [n]
  else if n < 0x800 then [0xC0 + n / 64, 0x80 + n % 64]
  else if n < 0x10000 then
    [0xE0 + n / 4096, 0x80 + (n / 64) % 64, 0x80 + n % 64]
  else
    [0xF0 + n / 0x40000, 0x80 + (n / 4096) % 64, 0x80 + (n / 64) % 64,
     0x80 + n % 64]

def percentEncode (b : Nat) : List Char :=
  ['%', hexUpper (b / 16), hexUpper (b % 16)]

/-- `urllib.parse.quote_plus` on one character: space becomes `+`, ASCII
alphanumerics and `_.-~` are kept, everything else is percent-encoded per
UTF-8 byte. -/
def quotePlusChar (c : Char) : List Char :=
  if c = ' ' then ['+']
  else if c.isAlphanum || c = '_' || c = '.' || c = '-' || c = '~' then [c]
  else (utf8Bytes c).flatMap percentEncode

def quotePlus (s : String) : String :=
  ⟨s.toList.flatMap quotePlusChar⟩

def encodePair (kv : String × String) : String :=
  quotePlus kv.1 ++ "=" ++ quotePlus kv.2

/-- `urllib.parse.urlencode` over the items of the dict in insertion order:
`k=v` pairs joined by `&`. -/
def urlencode : List (String × String) → String
  | [] => ""
  | [kv] => encodePair kv
  | kv :: kv2 :: rest => encodePair kv ++ "&" ++ urlencode (kv2 :: rest)

/-! ## Data model -/

def DUCKDNS_URL : String := "https://www.duckdns.org/update"

def IPV6_URL : String := "https://ipv6.icanhazip.com"

def VERBOSITY_LOGGING_DEBUG : Nat := 1

def VERBOSITY_DUCKDNS_VERBOSE : Nat := 2

/-- A per-domain settings record as the loader actually builds it:
`DomainSettings(**settings)` is a plain dataclass call, so the stored field
values are whatever TOML values the document supplied (Python dataclasses do
not check annotations at runtime).  Defaults are `clear=False, ip="",
ipv6=""`. -/
structure DynSettings where
  clear : Toml
  ip : Toml
  ipv6 : Toml

/-- The statically typed settings shape described by the dataclass
annotations; a well-typed configuration produces exactly these. -/
structure DomainSettings where
  clear : Bool
  ip : String
  ipv6 : String

def DomainSettings.toDyn (s : DomainSettings) : DynSettings :=
  ⟨Toml.bool s.clear, Toml.str s.ip, Toml.str s.ipv6⟩

/-- External-world oracles: `resolver n` is the raw body of the `n`-th GET to
the IPv6 lookup service (or a transport error, i.e. `URLError`), `http n` the
raw body of the `n`-th GET to the Duck DNS update endpoint (or a transport
error). -/
structure Oracle where
  resolver : Nat → Except Unit String
  http : Nat → Except Unit String

/-- Counters of external HTTP calls made so far. -/
structure NetState where
  resolverCalls : Nat
  httpCalls : Nat

inductive UpdateError where
  | network : UpdateError
  | protocol : String → UpdateError
deriving DecidableEq

/-- Result of one `duckdns()` call: the outcome (normal return or the raised
exception), the new call counters, the URL logged at debug level (token
redacted), the query parameters of the issued update request, the redacted
copy of those parameters, and the URL actually requested.  The `Option`
fields are `none` when the call aborted before the corresponding step. -/
structure DuckResult where
  outcome : Except UpdateError Unit
  net : NetState
  debugLog : Option String
  queryParams : Option (List (String × String))
  debugParams : Option (List (String × String))
  requestUrl : Option String

/-! ## Response validation (`re.match(r"^OK(?:\n|$)", text)`) -/

/-- `re.match` of the pattern `^OK(?:\n|$)` against a string: the first two
characters must be `O` and `K`, then either a literal newline follows, or `$`
matches (end of input, or a sole trailing newline). -/
def reMatchOK : List Char → Bool
  | c1 :: c2 :: rest =>
    (c1 == 'O') && (c2 == 'K')
      && (rest.head? == some '\n' || rest.isEmpty || rest == ['\n'])
  | _ => false

/-- The response validator applied to a raw response body: the body is
decoded and stripped, then matched against `^OK(?:\n|$)`. -/
def validateBody (body : String) : Bool :=
  reMatchOK (pyStrip body).toList

/-! ## get_ipv6 and duckdns -/

/-- `get_ipv6()`: one GET to the lookup service; on success the body is
stripped.  The call is counted whether or not it succeeds. -/
def get_ipv6 (oracle : Oracle) (st : NetState) :
    Except Unit String × NetState :=
  (match oracle.resolver st.resolverCalls with
   | Except.error e => Except.error e
   | Except.ok body => Except.ok (pyStrip body),
   ⟨st.resolverCalls + 1, st.httpCalls⟩)

/-- The `ipv6` entry of the query dict:
`get_ipv6() if settings.ipv6 == "auto" else settings.ipv6`. -/
def resolveIpv6 (oracle : Oracle) (s : DynSettings) (st : NetState) :
    Except Unit String × NetState :=
  if s.ipv6.isAuto then get_ipv6 oracle st
  else (Except.ok (pyStr s.ipv6), st)

/-- The query parameter dict in insertion order: `domains`, `ip`, `ipv6`,
`token` always, then `clear=true` only when `settings.clear` is truthy, then
`verbose=true` only when the verbose flag is set. -/
def buildParams (token domain ip ipv6 : String) (clear verbose : Bool) :
    List (String × String) :=
  [("domains", domain), ("ip", ip), ("ipv6", ipv6), ("token", token)]
    ++ (if clear then [("clear", "true")] else [])
    ++ (if verbose then [("verbose", "true")] else [])

def requestUrlOf (params : List (String × String)) : String :=
  DUCKDNS_URL ++ "?" ++ urlencode params

/-- The part of `duckdns()` after the effective ipv6 value is known: build
the query dict, log its redacted copy (`query_params.copy()` followed by
assigning `"redacted"` to the existing key `token` keeps insertion order, so
the copy equals building the dict with `"redacted"` in the token slot),
issue the GET, and validate the response.  The outcome is passed in by the
caller, which inspects the transport result. -/
def afterRequest (outcome : Except UpdateError Unit)
    (token domain ip ipv6 : String) (clear verbose : Bool)
    (st1 : NetState) : DuckResult :=
  ⟨outcome, ⟨st1.resolverCalls, st1.httpCalls + 1⟩,
   some (requestUrlOf (buildParams "redacted" domain ip ipv6 clear verbose)),
   some (buildParams token domain ip ipv6 clear verbose),
   some (buildParams "redacted" domain ip ipv6 clear verbose),
   some (requestUrlOf (buildParams token domain ip ipv6 clear verbose))⟩

/-- `duckdns(token, domain, settings, verbose=...)`: resolve the effective
ipv6 value (a `URLError` from `get_ipv6` propagates before anything is
built or logged), build and debug-log the request, issue it, and validate
the response, raising `ValueError` with the repr of the stripped text on a
mismatch. -/
def duckdns (oracle : Oracle) (token domain : String) (s : DynSettings)
    (verbose : Bool) (st : NetState) : DuckResult :=
  match resolveIpv6 oracle s st with
  | (Except.error _, st1) =>
    ⟨Except.error UpdateError.network, st1, none, none, none, none⟩
  | (Except.ok ipv6, st1) =>
    afterRequest
      (match oracle.http st1.httpCalls with
       | Except.error _ => Except.error UpdateError.network
       | Except.ok body =>
         if validateBody body then Except.ok ()
         else Except.error (UpdateError.protocol
           ("Unexpected response: " ++ pyRepr (pyStrip body))))
      token domain (pyStr s.ip) ipv6 (pyTruthy s.clear) verbose st1

/-! ## Config loading (`main`, lines 176-191) -/

inductive LoadError where
  | keyErr : LoadError
  | typeErr : LoadError
  | attrErr : LoadError
deriving DecidableEq

structure Config where
  token_command : Toml
  domains : List (String × DynSettings)

def allowedKeys : List String := ["clear", "ip", "ipv6"]

/-- `DomainSettings(**settings)`: the argument must be a mapping
(`TypeError` otherwise) and every key must be a declared field name
(`TypeError` on an unexpected keyword); field values are stored unchecked,
missing fields take the dataclass defaults. -/
def parseSettings : Toml → Except LoadError DynSettings
  | Toml.table kvs =>
    if kvs.all (fun kv => allowedKeys.contains kv.1) then
      Except.ok
        ⟨(List.lookup "clear" kvs).getD (Toml.bool false),
         (List.lookup "ip" kvs).getD (Toml.str ""),
         (List.lookup "ipv6" kvs).getD (Toml.str "")⟩
    else Except.error LoadError.typeErr
  | _ => Except.error LoadError.typeErr

/-- The dict comprehension over `config_data.get("domains", {}).items()`:
entries are converted in document order and the first failure raises. -/
def parseDomains : List (String × Toml) →
    Except LoadError (List (String × DynSettings))
  | [] => Except.ok []
  | (name, t) :: rest =>
    match parseSettings t with
    | Except.error e => Except.error e
    | Except.ok s =>
      match parseDomains rest with
      | Except.error e => Except.error e
      | Except.ok ds => Except.ok ((name, s) :: ds)

/-- The `try` block of `main`: build the domains dict (a non-table value for
`domains` makes `.items()` raise `AttributeError`, which the script does not
catch — the process still dies with a non-zero status), then read the
required key `token_command` (`KeyError` when absent).  No other top-level
key is ever inspected. -/
def load_config (cfg : List (String × Toml)) : Except LoadError Config :=
  match (List.lookup "domains" cfg).getD (Toml.table []) with
  | Toml.table ds =>
    match parseDomains ds with
    | Except.error e => Except.error e
    | Except.ok domains =>
      match List.lookup "token_command" cfg with
      | none => Except.error LoadError.keyErr
      | some tc => Except.ok ⟨tc, domains⟩
  | _ => Except.error LoadError.attrErr

/-! ## The batch loop and `main` -/

/-- Accumulator of the `for domain, settings in config.domains.items()`
loop: the exit status variable, the call counters, and the observable
traces (domains entered, update requests issued, error log records, debug
log records). -/
structure BatchState where
  exitStatus : Nat
  net : NetState
  attempted : List String
  requests : List (List (String × String))
  errorLogs : List String
  debugLogs : List String

/-- One loop iteration: call `duckdns`; `URLError` and `ValueError` are
caught, setting `exit_status = 1` and logging
`"Failed to update domain %r"` at error level, and the loop continues. -/
def batchStep (oracle : Oracle) (token : String) (verbose : Bool)
    (acc : BatchState) (dom : String × DynSettings) : BatchState :=
  let r := duckdns oracle token dom.1 dom.2 verbose acc.net
  ⟨(match r.outcome with
    | Except.ok _ => acc.exitStatus
    | Except.error _ => 1),
   r.net,
   acc.attempted ++ [dom.1],
   acc.requests ++ r.queryParams.toList,
   acc.errorLogs ++
     (match r.outcome with
      | Except.ok _ => []
      | Except.error _ => ["Failed to update domain " ++ pyRepr dom.1]),
   acc.debugLogs ++ r.debugLog.toList⟩

/-- Observable result of one program run. -/
structure RunResult where
  exitCode : Nat
  tokenRuns : Nat
  attempted : List String
  requests : List (List (String × String))
  resolverCalls : Nat
  errorLogs : List String
  debugLogs : List String

/-- `main` from the parsed config document on: load the configuration
(any caught load failure exits 1 before the token command runs), run the
token command once (`check_output` raising — non-zero exit or command not
found — is uncaught, so the interpreter dies with a non-zero status before
any domain is processed), strip its output, then run the batch loop and
exit with the accumulated status.  `tokenResult` is the oracle for the one
subprocess invocation; `verbose` for `duckdns` is
`args.verbosity >= VERBOSITY_DUCKDNS_VERBOSE`. -/
def main (cfg : List (String × Toml)) (oracle : Oracle)
    (tokenResult : Except Unit String) (verbosity : Nat) : RunResult :=
  match load_config cfg with
  | Except.error _ => ⟨1, 0, [], [], 0, [], []⟩
  | Except.ok config =>
    match tokenResult with
    | Except.error _ => ⟨1, 1, [], [], 0, [], []⟩
    | Except.ok output =>
      let token := pyStrip output
      let final := config.domains.foldl
        (batchStep oracle token (decide (VERBOSITY_DUCKDNS_VERBOSE ≤ verbosity)))
        ⟨0, ⟨0, 0⟩, [], [], [], []⟩
      ⟨final.exitStatus, 1, final.attempted, final.requests,
       final.net.resolverCalls, final.errorLogs, final.debugLogs⟩

/-! ## Auxiliary definitions used by the statements below -/

/-- Printable ASCII characters other than backslash and the single quote:
`repr` keeps these unchanged inside a single-quoted literal. -/
def pyPlainChar (c : Char) : Bool :=
  decide (32 ≤ c.toNat) && decide (c.toNat < 127)
    && !(c == backslashChar) && !(c == squoteChar)

/-- Whether `needle` occurs as a contiguous substring of `hay`. -/
def listContains (needle hay : List Char) : Bool :=
  (List.range (hay.length + 1)).any
    fun i => (hay.drop i).take needle.length == needle

/-- A benign external world: every IPv6 lookup answers `dead::beef` and the
update endpoint always answers `OK`. -/
def oracleW : Oracle :=
  ⟨fun _ => Except.ok "dead::beef", fun _ => Except.ok "OK"⟩

/-- An external world whose update endpoint answers `KO ` (a rejection with
trailing whitespace). -/
def oracleKO : Oracle :=
  ⟨fun _ => Except.ok "", fun _ => Except.ok "KO "⟩

/-- An external world whose update endpoint answers ` BAD \n`. -/
def oracleBad : Oracle :=
  ⟨fun _ => Except.ok "", fun _ => Except.ok " BAD \n"⟩

/-- An external world where the very first update request fails with a
transport error and later ones succeed. -/
def oracleFail : Oracle :=
  ⟨fun _ => Except.ok "::1",
   fun n => if n == 0 then Except.error () else Except.ok "OK"⟩

/-- A concrete parsed config document with two domains with default
settings. -/
def cfgW : List (String × Toml) :=
  [("token_command", Toml.arr [Toml.str "pass"]),
   ("domains", Toml.table [("a", Toml.table []), ("b", Toml.table [])])]

/-- The configuration `cfgW` loads to. -/
def configW : Config :=
  ⟨Toml.arr [Toml.str "pass"],
   [("a", ⟨Toml.bool false, Toml.str "", Toml.str ""⟩),
    ("b", ⟨Toml.bool false, Toml.str "", Toml.str ""⟩)]⟩

/-- A concrete parsed config document whose single domain table carries the
unknown key `bad`. -/
def cfgBadKey : List (String × Toml) :=
  [("token_command", Toml.arr []),
   ("domains", Toml.table [("a", Toml.table [("bad", Toml.int 1)])])]

/-! ## Lemmas: the response validator -/

theorem reMatchOK_iff (cs : List Char) :
    reMatchOK cs = true ↔
      cs = ['O', 'K'] ∨ ∃ t, cs = 'O' :: 'K' :: '\n' :: t := by
  match cs with
  | [] => simp [reMatchOK]
  | [c] => simp [reMatchOK]
  | c1 :: c2 :: [] =>
    simp only [reMatchOK, Bool.and_eq_true, beq_iff_eq, Bool.or_eq_true,
      List.head?_nil, List.isEmpty_nil]
    constructor
    · rintro ⟨⟨h1, h2⟩, _⟩
      exact Or.inl (by rw [h1, h2])
    · rintro (h | ⟨t, h⟩)
      · injection h with ha h; injection h with hb _
        exact ⟨⟨ha, hb⟩, by simp⟩
      · exact absurd h (by simp)
  | c1 :: c2 :: c3 :: rest' =>
    constructor
    · intro h
      simp only [reMatchOK, Bool.and_eq_true, beq_iff_eq, Bool.or_eq_true,
        List.head?_cons, Option.some.injEq, List.isEmpty_cons] at h
      obtain ⟨⟨h1, h2⟩, h3⟩ := h
      subst h1; subst h2
      refine Or.inr ?_
      rcases h3 with (h3 | h3) | h3
      · subst h3; exact ⟨rest', rfl⟩
      · cases h3
      · exact ⟨[], by rw [h3]⟩
    · rintro (h | ⟨t, h⟩)
      · exact absurd h (by simp)
      · injection h with a h; injection h with b h; injection h with c _
        subst a; subst b; subst c
        simp [reMatchOK]

theorem string_eq_iff_data (s t : String) : s = t ↔ s.data = t.data :=
  String.ext_iff

/-- C2: the Response Validator classifies a response body as success iff the
whitespace-trimmed text is exactly `OK` or starts with `OK` followed
immediately by a newline; in particular the empty string, `KO`, `OK evil`
and `NOCHANGE` are classified as failures. -/
theorem validator_accepts_iff_ok_start (body : String) :
    (validateBody body = true ↔
      (pyStrip body = "OK" ∨
        ∃ cs, (pyStrip body).toList = 'O' :: 'K' :: '\n' :: cs))
    ∧ validateBody "" = false ∧ validateBody "KO" = false
    ∧ validateBody "OK evil" = false ∧ validateBody "NOCHANGE" = false := by
  refine ⟨?_, by decide, by decide, by decide, by decide⟩
  rw [validateBody, reMatchOK_iff]
  have h2 : (pyStrip body).toList = ['O', 'K'] ↔ pyStrip body = "OK" := by
    rw [string_eq_iff_data]
    show _ ↔ (pyStrip body).data = "OK".data
    have hOK : "OK".data = ['O', 'K'] := by decide
    rw [hOK]
    exact Iff.rfl
  rw [h2]

/-! ## Lemmas: Python repr on plain printable text -/

theorem pyReprChar_plain {c : Char} (h : pyPlainChar c = true) :
    pyReprChar squoteChar c = [c] := by
  simp only [pyPlainChar, Bool.and_eq_true, decide_eq_true_eq,
    Bool.not_eq_true', beq_eq_false_iff_ne, ne_eq] at h
  obtain ⟨⟨⟨h1, h2⟩, h3⟩, h4⟩ := h
  rw [pyReprChar, if_neg h3, if_neg h4]
  rw [if_neg (fun hn => by subst hn; exact absurd h1 (by decide))]
  rw [if_neg (fun hn => by subst hn; exact absurd h1 (by decide))]
  rw [if_neg (fun hn => by subst hn; exact absurd h1 (by decide))]
  rw [if_neg (by simp only [Bool.or_eq_true, decide_eq_true_eq,
    Bool.and_eq_true, not_or, not_and, not_lt]; omega)]

theorem contains_squote_false (cs : List Char)
    (h : ∀ c ∈ cs, pyPlainChar c = true) :
    cs.contains squoteChar = false := by
  induction cs with
  | nil => rfl
  | cons a t ih =>
    have ha := h a (List.mem_cons_self a t)
    simp only [pyPlainChar, Bool.and_eq_true, Bool.not_eq_true'] at ha
    simp only [List.contains_cons, Bool.or_eq_false_iff]
    refine ⟨?_, ih fun c hc => h c (List.mem_cons_of_mem a hc)⟩
    exact beq_eq_false_iff_ne.mpr
      (Ne.symm (beq_eq_false_iff_ne.mp ha.2))

theorem flatMap_pyReprChar_plain (cs : List Char)
    (h : ∀ c ∈ cs, pyPlainChar c = true) :
    cs.flatMap (pyReprChar squoteChar) = cs := by
  induction cs with
  | nil => rfl
  | cons a t ih =>
    rw [List.flatMap_cons, pyReprChar_plain (h a (List.mem_cons_self a t)),
      ih fun c hc => h c (List.mem_cons_of_mem a hc)]
    rfl

theorem pyReprList_plain (cs : List Char)
    (h : ∀ c ∈ cs, pyPlainChar c = true) :
    pyReprList cs = squoteChar :: cs ++ [squoteChar] := by
  rw [pyReprList, contains_squote_false cs h]
  simp [flatMap_pyReprChar_plain cs h]

theorem pyRepr_plain (s : String) (h : ∀ c ∈ s.toList, pyPlainChar c = true) :
    pyRepr s = "\x27" ++ s ++ "\x27" := by
  apply String.ext
  show pyReprList s.toList = _
  rw [pyReprList_plain s.toList h]
  rw [String.data_append, String.data_append]
  rfl

/-! ## Lemmas: the query parameter builder -/

theorem lookup_domains_buildParams (token domain ip v6 : String)
    (clear verbose : Bool) :
    List.lookup "domains" (buildParams token domain ip v6 clear verbose)
      = some domain := rfl

theorem lookup_ip_buildParams (token domain ip v6 : String)
    (clear verbose : Bool) :
    List.lookup "ip" (buildParams token domain ip v6 clear verbose)
      = some ip := rfl

theorem lookup_ipv6_buildParams (token domain ip v6 : String)
    (clear verbose : Bool) :
    List.lookup "ipv6" (buildParams token domain ip v6 clear verbose)
      = some v6 := rfl

theorem lookup_token_buildParams (token domain ip v6 : String)
    (clear verbose : Bool) :
    List.lookup "token" (buildParams token domain ip v6 clear verbose)
      = some token := rfl

theorem lookup_clear_buildParams (token domain ip v6 : String)
    (clear verbose : Bool) :
    List.lookup "clear" (buildParams token domain ip v6 clear verbose)
      = if clear then some "true" else none := by
  cases clear <;> cases verbose <;> rfl

theorem lookup_verbose_buildParams (token domain ip v6 : String)
    (clear verbose : Bool) :
    List.lookup "verbose" (buildParams token domain ip v6 clear verbose)
      = if verbose then some "true" else none := by
  cases clear <;> cases verbose <;> rfl

theorem buildParams_keys (token domain ip v6 : String) (clear verbose : Bool) :
    (buildParams token domain ip v6 clear verbose).map Prod.fst
      = ["domains", "ip", "ipv6", "token"]
        ++ (if clear then ["clear"] else [])
        ++ (if verbose then ["verbose"] else []) := by
  cases clear <;> cases verbose <;> rfl

/-- The query dict depends on the token only in the `token` slot: looking up
any other key gives the same answer whatever the token was. -/
theorem lookup_buildParams_token_indep (k : String) (hk : k ≠ "token")
    (a b domain ip v6 : String) (clear verbose : Bool) :
    List.lookup k (buildParams a domain ip v6 clear verbose)
      = List.lookup k (buildParams b domain ip v6 clear verbose) := by
  have hbeq : (k == "token") = false := beq_eq_false_iff_ne.mpr hk
  simp only [buildParams, List.cons_append, List.nil_append, List.lookup,
    hbeq]

/-! ## Lemmas: one duckdns call -/

theorem duckdns_queryParams_eq (oracle : Oracle) (token domain : String)
    (s : DynSettings) (verbose : Bool) (st : NetState) :
    (duckdns oracle token domain s verbose st).queryParams
      = match (resolveIpv6 oracle s st).1 with
        | Except.error _ => none
        | Except.ok v6 =>
          some (buildParams token domain (pyStr s.ip) v6
            (pyTruthy s.clear) verbose) := by
  rcases hres : resolveIpv6 oracle s st with ⟨res, st1⟩
  rcases res with e | v6 <;>
    simp only [duckdns, hres, afterRequest]

theorem duckdns_debugParams_eq (oracle : Oracle) (token domain : String)
    (s : DynSettings) (verbose : Bool) (st : NetState) :
    (duckdns oracle token domain s verbose st).debugParams
      = match (resolveIpv6 oracle s st).1 with
        | Except.error _ => none
        | Except.ok v6 =>
          some (buildParams "redacted" domain (pyStr s.ip) v6
            (pyTruthy s.clear) verbose) := by
  rcases hres : resolveIpv6 oracle s st with ⟨res, st1⟩
  rcases res with e | v6 <;>
    simp only [duckdns, hres, afterRequest]

theorem duckdns_debugLog_eq (oracle : Oracle) (token domain : String)
    (s : DynSettings) (verbose : Bool) (st : NetState) :
    (duckdns oracle token domain s verbose st).debugLog
      = match (resolveIpv6 oracle s st).1 with
        | Except.error _ => none
        | Except.ok v6 =>
          some (requestUrlOf (buildParams "redacted" domain (pyStr s.ip) v6
            (pyTruthy s.clear) verbose)) := by
  rcases hres : resolveIpv6 oracle s st with ⟨res, st1⟩
  rcases res with e | v6 <;>
    simp only [duckdns, hres, afterRequest]

theorem duckdns_resolverCalls (oracle : Oracle) (token domain : String)
    (s : DynSettings) (verbose : Bool) (st : NetState) :
    (duckdns oracle token domain s verbose st).net.resolverCalls
      = if s.ipv6.isAuto then st.resolverCalls + 1 else st.resolverCalls := by
  by_cases hauto : s.ipv6.isAuto
  · rcases hr : oracle.resolver st.resolverCalls with e | b <;>
      simp [duckdns, resolveIpv6, get_ipv6, hauto, hr, afterRequest]
  · simp [duckdns, resolveIpv6, hauto, afterRequest]

/-- When the ipv6 setting is the literal string `"auto"`, the value emitted
in the query is the stripped body returned by the lookup call that this very
update issued (the one at index `st.resolverCalls`). -/
theorem duckdns_auto_resolves (oracle : Oracle) (token domain : String)
    (s : DynSettings) (verbose : Bool) (st : NetState) (body : String)
    (hauto : s.ipv6.isAuto = true)
    (hr : oracle.resolver st.resolverCalls = Except.ok body) :
    (duckdns oracle token domain s verbose st).queryParams
      = some (buildParams token domain (pyStr s.ip) (pyStrip body)
          (pyTruthy s.clear) verbose) := by
  rw [duckdns_queryParams_eq]
  simp [resolveIpv6, get_ipv6, hauto, hr]

theorem duckdns_nonauto_ipv6 (oracle : Oracle) (token domain : String)
    (s : DynSettings) (verbose : Bool) (st : NetState)
    (hauto : s.ipv6.isAuto = false) :
    (duckdns oracle token domain s verbose st).queryParams
      = some (buildParams token domain (pyStr s.ip) (pyStr s.ipv6)
          (pyTruthy s.clear) verbose) := by
  rw [duckdns_queryParams_eq]
  simp [resolveIpv6, hauto]

/-! ## Lemmas: urlencode around one entry -/

theorem string_append_assoc (a b c : String) : a ++ b ++ c = a ++ (b ++ c) := by
  apply String.ext
  simp only [String.data_append, List.append_assoc]

theorem urlencode_cons_of_ne_nil (kv : String × String)
    (l : List (String × String)) (h : l ≠ []) :
    urlencode (kv :: l) = encodePair kv ++ "&" ++ urlencode l := by
  cases l with
  | nil => exact absurd rfl h
  | cons x xs => rfl

/-- `urlencode` of a list containing a given entry splits as some prefix,
the encoded entry, and some suffix. -/
theorem urlencode_split (kv : String × String) :
    ∀ (l1 l2 : List (String × String)),
      ∃ pre suf, urlencode (l1 ++ kv :: l2) = pre ++ encodePair kv ++ suf := by
  intro l1
  induction l1 with
  | nil =>
    intro l2
    cases l2 with
    | nil => exact ⟨"", "", by simp [urlencode]⟩
    | cons x xs =>
      refine ⟨"", "&" ++ urlencode (x :: xs), ?_⟩
      rw [List.nil_append, urlencode_cons_of_ne_nil kv (x :: xs) (by simp)]
      simp [string_append_assoc]
  | cons a l1' ih =>
    intro l2
    obtain ⟨pre, suf, hps⟩ := ih l2
    refine ⟨encodePair a ++ "&" ++ pre, suf, ?_⟩
    rw [List.cons_append,
      urlencode_cons_of_ne_nil a (l1' ++ kv :: l2) (by simp), hps]
    simp [string_append_assoc]

/-! ## Typed-settings reductions -/

theorem pyStr_str (x : String) : pyStr (Toml.str x) = x := rfl

theorem pyTruthy_bool (b : Bool) : pyTruthy (Toml.bool b) = b := rfl

theorem isAuto_str (x : String) : (Toml.str x).isAuto = (x == "auto") := rfl

theorem toDyn_ipv6 (s : DomainSettings) : s.toDyn.ipv6 = Toml.str s.ipv6 := rfl

/-! ## Claim C3 -/

/-- C3: for every token, domain, settings and verbose flag, any built query
parameter set has exactly the keys `domains`, `ip`, `ipv6`, `token`, plus
`clear=true` iff `settings.clear`, plus `verbose=true` iff the verbose flag;
`ip` is always present with value `settings.ip`, including the empty string,
and no other key ever appears. -/
theorem query_params_exact_keys (token domain : String) (s : DomainSettings)
    (verbose : Bool) (oracle : Oracle) (st : NetState)
    (q : List (String × String))
    (hq : (duckdns oracle token domain s.toDyn verbose st).queryParams
      = some q) :
    q.map Prod.fst
      = ["domains", "ip", "ipv6", "token"]
        ++ (if s.clear then ["clear"] else [])
        ++ (if verbose then ["verbose"] else [])
    ∧ List.lookup "ip" q = some s.ip
    ∧ List.lookup "domains" q = some domain
    ∧ List.lookup "token" q = some token
    ∧ (List.lookup "clear" q = some "true" ↔ s.clear = true)
    ∧ (List.lookup "verbose" q = some "true" ↔ verbose = true)
    ∧ (s.clear = false → List.lookup "clear" q = none)
    ∧ (verbose = false → List.lookup "verbose" q = none) := by
  rw [duckdns_queryParams_eq] at hq
  rcases hres : (resolveIpv6 oracle s.toDyn st).1 with e | v6
  · rw [hres] at hq; cases hq
  · rw [hres] at hq
    simp only [Option.some.injEq] at hq
    subst hq
    refine ⟨buildParams_keys .., lookup_ip_buildParams ..,
      lookup_domains_buildParams .., lookup_token_buildParams ..,
      ?_, ?_, ?_, ?_⟩
    · rw [lookup_clear_buildParams]
      show (if s.clear then some "true" else none) = some "true" ↔ _
      cases s.clear <;> simp
    · rw [lookup_verbose_buildParams]
      show (if verbose then some "true" else none) = some "true" ↔ _
      cases verbose <;> simp
    · intro hc
      rw [lookup_clear_buildParams]
      simp [DomainSettings.toDyn, pyTruthy, hc]
    · intro hv
      rw [lookup_verbose_buildParams, hv]; rfl

theorem query_params_exact_keys_witness :
    List.lookup "ip" (buildParams "tok" "example" "" "2001:db8::1" true false)
        = some ""
    ∧ List.lookup "clear"
        (buildParams "tok" "example" "" "2001:db8::1" true false)
        = some "true" := by
  have h := query_params_exact_keys "tok" "example" ⟨true, "", "2001:db8::1"⟩
    false oracleW ⟨0, 0⟩
    (buildParams "tok" "example" "" "2001:db8::1" true false) (by rfl)
  exact ⟨h.2.1, h.2.2.2.2.1.mpr rfl⟩

/-! ## Claim C4 -/

/-- C4: per domain update the IP Resolver is invoked exactly once if
`settings.ipv6 = "auto"` and never otherwise; when invoked, the emitted
`ipv6` value is the stripped result of that very call (the lookup at the
current call counter, so each auto domain issues its own lookup), and when
not invoked the emitted value is `settings.ipv6` verbatim, including the
empty string. -/
theorem resolver_called_iff_auto (oracle : Oracle) (st : NetState)
    (token domain : String) (s : DomainSettings) (verbose : Bool) :
    ((duckdns oracle token domain s.toDyn verbose st).net.resolverCalls
      = if s.ipv6 = "auto" then st.resolverCalls + 1 else st.resolverCalls)
    ∧ (∀ body q, s.ipv6 = "auto" →
        oracle.resolver st.resolverCalls = Except.ok body →
        (duckdns oracle token domain s.toDyn verbose st).queryParams = some q →
        List.lookup "ipv6" q = some (pyStrip body))
    ∧ (s.ipv6 ≠ "auto" → ∀ q,
        (duckdns oracle token domain s.toDyn verbose st).queryParams = some q →
        List.lookup "ipv6" q = some s.ipv6) := by
  refine ⟨?_, ?_, ?_⟩
  · rw [duckdns_resolverCalls]
    by_cases h : s.ipv6 = "auto" <;>
      simp [toDyn_ipv6, isAuto_str, h]
  · intro body q hauto hr hq
    have hshape := duckdns_auto_resolves oracle token domain s.toDyn verbose
      st body (by rw [toDyn_ipv6, isAuto_str]; exact beq_iff_eq.mpr hauto) hr
    rw [hshape] at hq
    simp only [Option.some.injEq] at hq
    subst hq
    exact lookup_ipv6_buildParams ..
  · intro hauto q hq
    have hshape := duckdns_nonauto_ipv6 oracle token domain s.toDyn verbose st
      (by rw [toDyn_ipv6, isAuto_str]; exact beq_eq_false_iff_ne.mpr hauto)
    rw [hshape] at hq
    simp only [Option.some.injEq] at hq
    subst hq
    exact lookup_ipv6_buildParams ..

theorem resolver_called_iff_auto_witness :
    (duckdns oracleW "tok" "example"
        (DomainSettings.toDyn ⟨false, "", "auto"⟩) false
        ⟨0, 0⟩).net.resolverCalls = 1
    ∧ List.lookup "ipv6" (buildParams "tok" "example" "" "dead::beef"
        false false) = some "dead::beef" := by
  have h := resolver_called_iff_auto oracleW ⟨0, 0⟩ "tok" "example"
    ⟨false, "", "auto"⟩ false
  constructor
  · rw [h.1]; rfl
  · exact h.2.1 "dead::beef"
      (buildParams "tok" "example" "" "dead::beef" false false)
      rfl rfl (by rfl)

/-! ## Claim C5 -/

/-- C5: the debug-logged request holds the literal `redacted` in the token
parameter slot, agrees with the actually issued request on every other
parameter, and is independent of the real token value: two runs differing
only in the token produce identical debug log output. -/
theorem debug_log_redacts_token (oracle : Oracle) (st : NetState)
    (token token2 domain : String) (s : DynSettings) (verbose : Bool) :
    (duckdns oracle token domain s verbose st).debugLog
      = (duckdns oracle token2 domain s verbose st).debugLog
    ∧ (∀ u, (duckdns oracle token domain s verbose st).debugLog = some u →
        ∃ pre suf, u = pre ++ "token=redacted" ++ suf)
    ∧ (∀ q dq,
        (duckdns oracle token domain s verbose st).queryParams = some q →
        (duckdns oracle token domain s verbose st).debugParams = some dq →
        List.lookup "token" dq = some "redacted"
        ∧ ∀ k, k ≠ "token" → List.lookup k dq = List.lookup k q) := by
  refine ⟨by rw [duckdns_debugLog_eq, duckdns_debugLog_eq], ?_, ?_⟩
  · intro u hu
    rw [duckdns_debugLog_eq] at hu
    rcases hres : (resolveIpv6 oracle s st).1 with e | v6
    · rw [hres] at hu; cases hu
    · rw [hres] at hu
      simp only [Option.some.injEq] at hu
      subst hu
      have hsplit : buildParams "redacted" domain (pyStr s.ip) v6
          (pyTruthy s.clear) verbose
          = [("domains", domain), ("ip", pyStr s.ip), ("ipv6", v6)]
            ++ ("token", "redacted")
              :: ((if pyTruthy s.clear then [("clear", "true")] else [])
                ++ (if verbose then [("verbose", "true")] else [])) := by
        simp [buildParams]
      obtain ⟨pre, suf, hps⟩ := urlencode_split ("token", "redacted")
        [("domains", domain), ("ip", pyStr s.ip), ("ipv6", v6)]
        ((if pyTruthy s.clear then [("clear", "true")] else [])
          ++ (if verbose then [("verbose", "true")] else []))
      refine ⟨DUCKDNS_URL ++ "?" ++ pre, suf, ?_⟩
      rw [requestUrlOf, hsplit, hps,
        show encodePair ("token", "redacted") = "token=redacted" by decide]
      simp [string_append_assoc]
  · intro q dq hq hdq
    rw [duckdns_queryParams_eq] at hq
    rw [duckdns_debugParams_eq] at hdq
    rcases hres : (resolveIpv6 oracle s st).1 with e | v6
    · rw [hres] at hq; cases hq
    · rw [hres] at hq hdq
      simp only [Option.some.injEq] at hq hdq
      subst hq; subst hdq
      exact ⟨lookup_token_buildParams ..,
        fun k hk => lookup_buildParams_token_indep k hk "redacted" token
          domain (pyStr s.ip) v6 (pyTruthy s.clear) verbose⟩

theorem debug_log_redacts_token_witness :
    (∃ pre suf,
      requestUrlOf (buildParams "redacted" "example" "" "::1" false false)
        = pre ++ "token=redacted" ++ suf)
    ∧ List.lookup "token" (buildParams "redacted" "example" "" "::1"
        false false) = some "redacted" := by
  have h := debug_log_redacts_token oracleW ⟨0, 0⟩ "secret" "other" "example"
    ⟨Toml.bool false, Toml.str "", Toml.str "::1"⟩ false
  exact ⟨h.2.1 _ (by rfl), (h.2.2 _ _ (by rfl) (by rfl)).1⟩

/-! ## Claim C7 -/

/-- C7 counterexample: for the response body `KO ` (with a trailing space)
the raised protocol error carries `Unexpected response: ` followed by the
repr of the stripped text (the quoted two letters), and the exact unmodified
body does not occur in it, so the error does not carry the full response
text verbatim. -/
theorem protocol_error_not_verbatim :
    (duckdns oracleKO "tok" "example"
        ⟨Toml.bool false, Toml.str "", Toml.str ""⟩ false ⟨0, 0⟩).outcome
      = Except.error (UpdateError.protocol "Unexpected response: \x27KO\x27")
    ∧ listContains "KO ".toList
        "Unexpected response: \x27KO\x27".toList = false :=
  ⟨rfl, by decide⟩

/-- C7 amended: a rejected response raises `ValueError` whose message is
`Unexpected response: ` followed by the Python repr of the
whitespace-trimmed response text (not the raw body); whenever the trimmed
text consists of plain printable characters it appears verbatim inside the
message. -/
theorem protocol_error_carries_repr (oracle : Oracle) (st : NetState)
    (token domain : String) (s : DynSettings) (verbose : Bool) (body : String)
    (hna : s.ipv6.isAuto = false)
    (hhttp : oracle.http st.httpCalls = Except.ok body)
    (hbad : validateBody body = false) :
    (duckdns oracle token domain s verbose st).outcome
      = Except.error (UpdateError.protocol
          ("Unexpected response: " ++ pyRepr (pyStrip body)))
    ∧ ((∀ c ∈ (pyStrip body).toList, pyPlainChar c = true) →
        ∃ pre suf, "Unexpected response: " ++ pyRepr (pyStrip body)
          = pre ++ pyStrip body ++ suf) := by
  constructor
  · simp [duckdns, resolveIpv6, hna, afterRequest, hhttp, hbad]
  · intro hplain
    rw [pyRepr_plain _ hplain]
    refine ⟨"Unexpected response: \x27", "\x27", ?_⟩
    rw [← string_append_assoc "Unexpected response: "
        ("\x27" ++ pyStrip body) "\x27",
      ← string_append_assoc "Unexpected response: " "\x27" (pyStrip body),
      show ("Unexpected response: " : String) ++ "\x27"
        = "Unexpected response: \x27" from by decide]

theorem protocol_error_carries_repr_witness :
    (duckdns oracleBad "tok" "example"
        ⟨Toml.bool false, Toml.str "", Toml.str ""⟩ false ⟨0, 0⟩).outcome
      = Except.error (UpdateError.protocol
          ("Unexpected response: " ++ pyRepr (pyStrip " BAD \n")))
    ∧ ∃ pre suf, "Unexpected response: " ++ pyRepr (pyStrip " BAD \n")
        = pre ++ pyStrip " BAD \n" ++ suf := by
  have h := protocol_error_carries_repr oracleBad ⟨0, 0⟩ "tok" "example"
    ⟨Toml.bool false, Toml.str "", Toml.str ""⟩ false " BAD \n"
    rfl rfl (by decide)
  exact ⟨h.1, h.2 (by decide)⟩

/-! ## Lemmas: the loader -/

theorem parseSettings_error_of_badkey (kvs : List (String × Toml))
    (k : String) (v : Toml) (hmem : (k, v) ∈ kvs)
    (hk : allowedKeys.contains k = false) :
    parseSettings (Toml.table kvs) = Except.error LoadError.typeErr := by
  have hall : kvs.all (fun kv => allowedKeys.contains kv.1) = false := by
    rw [List.all_eq_false]
    refine ⟨(k, v), hmem, ?_⟩
    simp only [Bool.not_eq_true]
    exact hk
  show (if kvs.all (fun kv => allowedKeys.contains kv.1) then
      Except.ok (⟨(List.lookup "clear" kvs).getD (Toml.bool false),
        (List.lookup "ip" kvs).getD (Toml.str ""),
        (List.lookup "ipv6" kvs).getD (Toml.str "")⟩ : DynSettings)
    else Except.error LoadError.typeErr) = Except.error LoadError.typeErr
  rw [hall]
  rfl

theorem parseDomains_isError_of_mem (ds : List (String × Toml))
    (name : String) (t : Toml) (hmem : (name, t) ∈ ds) (e' : LoadError)
    (ht : parseSettings t = Except.error e') :
    ∃ e, parseDomains ds = Except.error e := by
  induction ds with
  | nil => cases hmem
  | cons d rest ih =>
    rcases d with ⟨dn, dt⟩
    rcases List.mem_cons.mp hmem with heq | hmem'
    · injection heq with h1 h2
      subst h1; subst h2
      exact ⟨e', by simp [parseDomains, ht]⟩
    · rcases hd : parseSettings dt with ed | sd
      · exact ⟨ed, by simp [parseDomains, hd]⟩
      · obtain ⟨e, he⟩ := ih hmem'
        exact ⟨e, by simp [parseDomains, hd, he]⟩

theorem load_config_error_of_bad_domain (cfg : List (String × Toml))
    (ds : List (String × Toml))
    (hd : List.lookup "domains" cfg = some (Toml.table ds))
    (name : String) (settings : List (String × Toml))
    (hmem : (name, Toml.table settings) ∈ ds)
    (k : String) (v : Toml) (hkmem : (k, v) ∈ settings)
    (hk : allowedKeys.contains k = false) :
    ∃ e, load_config cfg = Except.error e := by
  have hps := parseSettings_error_of_badkey settings k v hkmem hk
  obtain ⟨e, he⟩ := parseDomains_isError_of_mem ds name (Toml.table settings)
    hmem _ hps
  exact ⟨e, by simp [load_config, hd, he]⟩

theorem load_config_table_reduce (cfg : List (String × Toml))
    (ds : List (String × Toml))
    (hd : (List.lookup "domains" cfg).getD (Toml.table []) = Toml.table ds) :
    load_config cfg
      = match parseDomains ds with
        | Except.error e => Except.error e
        | Except.ok domains =>
          match List.lookup "token_command" cfg with
          | none => Except.error LoadError.keyErr
          | some tc => Except.ok ⟨tc, domains⟩ := by
  unfold load_config
  rw [hd]

theorem load_config_cons_irrelevant (k : String) (v : Toml)
    (cfg : List (String × Toml))
    (h1 : k ≠ "domains") (h2 : k ≠ "token_command") :
    load_config ((k, v) :: cfg) = load_config cfg := by
  have hb1 : ("domains" == k) = false := beq_eq_false_iff_ne.mpr (Ne.symm h1)
  have hb2 : ("token_command" == k) = false :=
    beq_eq_false_iff_ne.mpr (Ne.symm h2)
  simp [load_config, List.lookup, hb1, hb2]

/-! ## Lemmas: main and the batch loop -/

theorem main_load_error (cfg : List (String × Toml)) (oracle : Oracle)
    (tok : Except Unit String) (verbosity : Nat) (e : LoadError)
    (h : load_config cfg = Except.error e) :
    main cfg oracle tok verbosity = ⟨1, 0, [], [], 0, [], []⟩ := by
  simp [main, h]

theorem main_token_error (cfg : List (String × Toml)) (config : Config)
    (oracle : Oracle) (verbosity : Nat)
    (h : load_config cfg = Except.ok config) :
    main cfg oracle (Except.error ()) verbosity = ⟨1, 1, [], [], 0, [], []⟩ := by
  simp [main, h]

theorem main_ok_fields (cfg : List (String × Toml)) (config : Config)
    (oracle : Oracle) (output : String) (verbosity : Nat)
    (h : load_config cfg = Except.ok config) :
    main cfg oracle (Except.ok output) verbosity
      = ⟨(config.domains.foldl
            (batchStep oracle (pyStrip output)
              (decide (VERBOSITY_DUCKDNS_VERBOSE ≤ verbosity)))
            ⟨0, ⟨0, 0⟩, [], [], [], []⟩).exitStatus, 1,
         (config.domains.foldl
            (batchStep oracle (pyStrip output)
              (decide (VERBOSITY_DUCKDNS_VERBOSE ≤ verbosity)))
            ⟨0, ⟨0, 0⟩, [], [], [], []⟩).attempted,
         (config.domains.foldl
            (batchStep oracle (pyStrip output)
              (decide (VERBOSITY_DUCKDNS_VERBOSE ≤ verbosity)))
            ⟨0, ⟨0, 0⟩, [], [], [], []⟩).requests,
         (config.domains.foldl
            (batchStep oracle (pyStrip output)
              (decide (VERBOSITY_DUCKDNS_VERBOSE ≤ verbosity)))
            ⟨0, ⟨0, 0⟩, [], [], [], []⟩).net.resolverCalls,
         (config.domains.foldl
            (batchStep oracle (pyStrip output)
              (decide (VERBOSITY_DUCKDNS_VERBOSE ≤ verbosity)))
            ⟨0, ⟨0, 0⟩, [], [], [], []⟩).errorLogs,
         (config.domains.foldl
            (batchStep oracle (pyStrip output)
              (decide (VERBOSITY_DUCKDNS_VERBOSE ≤ verbosity)))
            ⟨0, ⟨0, 0⟩, [], [], [], []⟩).debugLogs⟩ := by
  simp [main, h]

theorem batchStep_attempted (oracle : Oracle) (token : String)
    (verbose : Bool) (acc : BatchState) (d : String × DynSettings) :
    (batchStep oracle token verbose acc d).attempted
      = acc.attempted ++ [d.1] := rfl

theorem batchStep_requests (oracle : Oracle) (token : String)
    (verbose : Bool) (acc : BatchState) (d : String × DynSettings) :
    (batchStep oracle token verbose acc d).requests
      = acc.requests
        ++ (duckdns oracle token d.1 d.2 verbose acc.net).queryParams.toList :=
  rfl

theorem batchStep_errorLogs (oracle : Oracle) (token : String)
    (verbose : Bool) (acc : BatchState) (d : String × DynSettings) :
    (batchStep oracle token verbose acc d).errorLogs
      = acc.errorLogs
        ++ (match (duckdns oracle token d.1 d.2 verbose acc.net).outcome with
            | Except.ok _ => []
            | Except.error _ =>
              ["Failed to update domain " ++ pyRepr d.1]) := rfl

theorem batchStep_exitStatus (oracle : Oracle) (token : String)
    (verbose : Bool) (acc : BatchState) (d : String × DynSettings) :
    (batchStep oracle token verbose acc d).exitStatus
      = (match (duckdns oracle token d.1 d.2 verbose acc.net).outcome with
         | Except.ok _ => acc.exitStatus
         | Except.error _ => 1) := rfl

theorem batch_foldl_attempted (oracle : Oracle) (token : String)
    (verbose : Bool) (doms : List (String × DynSettings)) :
    ∀ acc : BatchState,
      (doms.foldl (batchStep oracle token verbose) acc).attempted
        = acc.attempted ++ doms.map Prod.fst := by
  induction doms with
  | nil => intro acc; simp
  | cons d rest ih =>
    intro acc
    rw [List.foldl_cons, ih, batchStep_attempted]
    simp

theorem batch_foldl_errors (oracle : Oracle) (token : String)
    (verbose : Bool) (doms : List (String × DynSettings)) :
    ∀ acc : BatchState, ∃ errs,
      (doms.foldl (batchStep oracle token verbose) acc).errorLogs
          = acc.errorLogs ++ errs
      ∧ ((doms.foldl (batchStep oracle token verbose) acc).exitStatus
          = if errs = [] then acc.exitStatus else 1)
      ∧ ∀ m ∈ errs, ∃ d ∈ doms.map Prod.fst,
          m = "Failed to update domain " ++ pyRepr d := by
  induction doms with
  | nil => intro acc; exact ⟨[], by simp, by simp, by simp⟩
  | cons d rest ih =>
    intro acc
    obtain ⟨errs, he, hx, hm⟩ := ih (batchStep oracle token verbose acc d)
    rcases hout : (duckdns oracle token d.1 d.2 verbose acc.net).outcome
      with err | u
    · refine ⟨("Failed to update domain " ++ pyRepr d.1) :: errs, ?_, ?_, ?_⟩
      · rw [List.foldl_cons, he, batchStep_errorLogs, hout]
        simp
      · rw [List.foldl_cons, hx, batchStep_exitStatus, hout]
        rcases errs with _ | ⟨m, ms⟩ <;> simp
      · intro m hmem
        rcases List.mem_cons.mp hmem with heq | hmem'
        · exact ⟨d.1, by simp, heq⟩
        · obtain ⟨d', hd', hm'⟩ := hm m hmem'
          exact ⟨d', by simp [hd'], hm'⟩
    · refine ⟨errs, ?_, ?_, ?_⟩
      · rw [List.foldl_cons, he, batchStep_errorLogs, hout]
        simp
      · rw [List.foldl_cons, hx, batchStep_exitStatus, hout]
      · intro m hmem
        obtain ⟨d', hd', hm'⟩ := hm m hmem
        exact ⟨d', by simp [hd'], hm'⟩

theorem duckdns_queryParams_shape (oracle : Oracle) (token domain : String)
    (s : DynSettings) (verbose : Bool) (st : NetState)
    (q : List (String × String))
    (h : (duckdns oracle token domain s verbose st).queryParams = some q) :
    ∃ v6, q = buildParams token domain (pyStr s.ip) v6
      (pyTruthy s.clear) verbose := by
  rw [duckdns_queryParams_eq] at h
  rcases hres : (resolveIpv6 oracle s st).1 with e | v6
  · rw [hres] at h; cases h
  · rw [hres] at h
    simp only [Option.some.injEq] at h
    exact ⟨v6, h.symm⟩

theorem batch_foldl_requests (oracle : Oracle) (token : String)
    (verbose : Bool) (doms : List (String × DynSettings)) :
    ∀ acc : BatchState,
      (∀ q ∈ acc.requests, List.lookup "token" q = some token) →
      ∀ q ∈ (doms.foldl (batchStep oracle token verbose) acc).requests,
        List.lookup "token" q = some token := by
  induction doms with
  | nil => intro acc h; simpa using h
  | cons d rest ih =>
    intro acc h
    rw [List.foldl_cons]
    refine ih (batchStep oracle token verbose acc d) ?_
    intro q hq
    rw [batchStep_requests] at hq
    rcases List.mem_append.mp hq with hq' | hq'
    · exact h q hq'
    · rcases hqp : (duckdns oracle token d.1 d.2 verbose acc.net).queryParams
        with _ | q'
      · rw [hqp] at hq'; cases hq'
      · rw [hqp] at hq'
        simp only [Option.toList_some, List.mem_singleton] at hq'
        obtain ⟨v6, hv⟩ := duckdns_queryParams_shape oracle token d.1 d.2
          verbose acc.net _ hqp
        rw [hq', hv]
        exact lookup_token_buildParams ..

/-! ## Claim C1 -/

/-- C1: over the batch every configured domain is attempted even when an
earlier domain fails with a network or protocol error (each failure is
caught in the loop and logged at error level naming the domain), and the
exit status is non-zero iff at least one domain failed. -/
theorem batch_attempts_all_and_exit_iff_failure (cfg : List (String × Toml))
    (config : Config) (oracle : Oracle) (output : String) (verbosity : Nat)
    (hload : load_config cfg = Except.ok config) :
    (main cfg oracle (Except.ok output) verbosity).attempted
        = config.domains.map Prod.fst
    ∧ ((main cfg oracle (Except.ok output) verbosity).exitCode ≠ 0
        ↔ (main cfg oracle (Except.ok output) verbosity).errorLogs ≠ [])
    ∧ ∀ m ∈ (main cfg oracle (Except.ok output) verbosity).errorLogs,
        ∃ d ∈ config.domains.map Prod.fst,
          m = "Failed to update domain " ++ pyRepr d := by
  rw [main_ok_fields cfg config oracle output verbosity hload]
  obtain ⟨errs, he, hx, hm⟩ := batch_foldl_errors oracle (pyStrip output)
    (decide (VERBOSITY_DUCKDNS_VERBOSE ≤ verbosity)) config.domains
    ⟨0, ⟨0, 0⟩, [], [], [], []⟩
  refine ⟨?_, ?_, ?_⟩
  · rw [show (⟨_, 1, _, _, _, _, _⟩ : RunResult).attempted = _ from rfl,
      batch_foldl_attempted]
    simp
  · show _ ≠ 0 ↔ _ ≠ []
    rw [he, hx]
    rcases errs with _ | ⟨m, ms⟩ <;> simp
  · intro m hmem
    rw [show (⟨_, 1, _, _, _, _, _⟩ : RunResult).errorLogs = _ from rfl,
      he] at hmem
    simp only [List.nil_append] at hmem
    exact hm m hmem

theorem batch_attempts_all_witness :
    (main cfgW oracleFail (Except.ok "tok") 0).attempted = ["a", "b"]
    ∧ (main cfgW oracleFail (Except.ok "tok") 0).exitCode ≠ 0 := by
  have h := batch_attempts_all_and_exit_iff_failure cfgW configW oracleFail
    "tok" 0 rfl
  exact ⟨by rw [h.1]; rfl, h.2.1.mpr (by decide)⟩

/-! ## Claim C9 -/

/-- C9: the token command runs exactly once per run; its trimmed standard
output is the token used in every issued update request; and when the
command fails (non-zero exit or not found) the run aborts with a non-zero
exit before any domain update is attempted. -/
theorem token_once_and_reused (cfg : List (String × Toml)) (config : Config)
    (oracle : Oracle) (verbosity : Nat) (output : String)
    (hload : load_config cfg = Except.ok config) :
    (main cfg oracle (Except.error ()) verbosity).exitCode = 1
    ∧ (main cfg oracle (Except.error ()) verbosity).attempted = []
    ∧ (main cfg oracle (Except.error ()) verbosity).requests = []
    ∧ (main cfg oracle (Except.error ()) verbosity).tokenRuns = 1
    ∧ (main cfg oracle (Except.ok output) verbosity).tokenRuns = 1
    ∧ ∀ q ∈ (main cfg oracle (Except.ok output) verbosity).requests,
        List.lookup "token" q = some (pyStrip output) := by
  rw [main_token_error cfg config oracle verbosity hload,
    main_ok_fields cfg config oracle output verbosity hload]
  refine ⟨rfl, rfl, rfl, rfl, rfl, ?_⟩
  intro q hq
  exact batch_foldl_requests oracle (pyStrip output)
    (decide (VERBOSITY_DUCKDNS_VERBOSE ≤ verbosity)) config.domains
    ⟨0, ⟨0, 0⟩, [], [], [], []⟩ (by intro q' hq'; cases hq') q hq

theorem token_once_and_reused_witness :
    (main cfgW oracleW (Except.error ()) 0).attempted = []
    ∧ (main cfgW oracleW (Except.error ()) 0).exitCode = 1
    ∧ List.lookup "token" (buildParams (pyStrip " tok \n") "a" "" "" false false)
        = some (pyStrip " tok \n") := by
  have h := token_once_and_reused cfgW configW oracleW 0 " tok \n" rfl
  exact ⟨h.2.1, h.1,
    h.2.2.2.2.2 (buildParams (pyStrip " tok \n") "a" "" "" false false)
      (by decide)⟩

/-! ## Claim C10 -/

/-- C10: a TOML config with a valid `token_command` and no `domains` table
loads as a config with an empty domain set; the run issues no HTTP request
(neither an update nor an IPv6 lookup), runs the token command once, and
exits 0. -/
theorem no_domains_table_success (cfg : List (String × Toml)) (tc : Toml)
    (oracle : Oracle) (output : String) (verbosity : Nat)
    (hnod : List.lookup "domains" cfg = none)
    (htc : List.lookup "token_command" cfg = some tc) :
    load_config cfg = Except.ok ⟨tc, []⟩
    ∧ (main cfg oracle (Except.ok output) verbosity).exitCode = 0
    ∧ (main cfg oracle (Except.ok output) verbosity).requests = []
    ∧ (main cfg oracle (Except.ok output) verbosity).resolverCalls = 0
    ∧ (main cfg oracle (Except.ok output) verbosity).attempted = []
    ∧ (main cfg oracle (Except.ok output) verbosity).tokenRuns = 1 := by
  have hl : load_config cfg = Except.ok ⟨tc, []⟩ := by
    simp [load_config, hnod, parseDomains, htc]
  refine ⟨hl, ?_⟩
  rw [main_ok_fields cfg ⟨tc, []⟩ oracle output verbosity hl]
  exact ⟨rfl, rfl, rfl, rfl, rfl⟩

theorem no_domains_table_success_witness :
    (main [("token_command", Toml.arr [Toml.str "pass"])] oracleW
        (Except.ok "t") 0).exitCode = 0
    ∧ (main [("token_command", Toml.arr [Toml.str "pass"])] oracleW
        (Except.ok "t") 0).requests = [] := by
  have h := no_domains_table_success
    [("token_command", Toml.arr [Toml.str "pass"])]
    (Toml.arr [Toml.str "pass"]) oracleW "t" 0 rfl rfl
  exact ⟨h.2.1, h.2.2.1⟩

/-! ## Claim C6 -/

/-- C6 counterexample: a config document carrying the unknown top-level key
`unknown` loads successfully and the whole run exits 0, so an unknown
top-level key is not a fatal configuration error. -/
theorem unknown_toplevel_key_accepted :
    load_config [("token_command", Toml.arr [Toml.str "pass"]),
        ("unknown", Toml.str "x")]
      = Except.ok ⟨Toml.arr [Toml.str "pass"], []⟩
    ∧ (main [("token_command", Toml.arr [Toml.str "pass"]),
        ("unknown", Toml.str "x")] oracleW (Except.ok "t") 0).exitCode = 0 :=
  ⟨rfl, rfl⟩

/-- C6 amended: an unknown key inside a per-domain table is a fatal
configuration error — loading fails, the process exits 1, and no domain
update or HTTP request is attempted — while unknown top-level keys are
ignored (adding one never changes the result of loading). -/
theorem unknown_domain_key_fatal (cfg : List (String × Toml))
    (ds : List (String × Toml))
    (hd : List.lookup "domains" cfg = some (Toml.table ds))
    (name : String) (settings : List (String × Toml))
    (hmem : (name, Toml.table settings) ∈ ds)
    (k : String) (v : Toml) (hkmem : (k, v) ∈ settings)
    (hk : allowedKeys.contains k = false)
    (oracle : Oracle) (tok : Except Unit String) (verbosity : Nat) :
    (∃ e, load_config cfg = Except.error e)
    ∧ (main cfg oracle tok verbosity).exitCode = 1
    ∧ (main cfg oracle tok verbosity).attempted = []
    ∧ (main cfg oracle tok verbosity).requests = []
    ∧ ∀ (k' : String) (v' : Toml), k' ≠ "domains" → k' ≠ "token_command" →
        load_config ((k', v') :: cfg) = load_config cfg := by
  obtain ⟨e, he⟩ := load_config_error_of_bad_domain cfg ds hd name settings
    hmem k v hkmem hk
  rw [main_load_error cfg oracle tok verbosity e he]
  exact ⟨⟨e, he⟩, rfl, rfl, rfl,
    fun k' v' h1 h2 => load_config_cons_irrelevant k' v' cfg h1 h2⟩

theorem unknown_domain_key_fatal_witness :
    (main cfgBadKey oracleW (Except.ok "t") 0).exitCode = 1
    ∧ (main cfgBadKey oracleW (Except.ok "t") 0).attempted = []
    ∧ load_config (("extra", Toml.int 0) :: cfgBadKey)
        = load_config cfgBadKey := by
  have h := unknown_domain_key_fatal cfgBadKey
    [("a", Toml.table [("bad", Toml.int 1)])] rfl "a"
    [("bad", Toml.int 1)] (List.mem_singleton.mpr rfl) "bad" (Toml.int 1)
    (List.mem_singleton.mpr rfl) (by decide) oracleW (Except.ok "t") 0
  exact ⟨h.2.1, h.2.2.1, h.2.2.2.2 "extra" (Toml.int 0)
    (by decide) (by decide)⟩

/-! ## Claim C8 -/

/-- C8 counterexample: a config whose `token_command` is a bare string and
whose domain table has an integer-typed `ip` — malformed field types
throughout — loads successfully, so malformed field types are not a
configuration error. -/
theorem malformed_types_accepted :
    load_config [("token_command", Toml.str "echo"),
        ("domains", Toml.table [("a", Toml.table [("ip", Toml.int 5)])])]
      = Except.ok ⟨Toml.str "echo",
          [("a", ⟨Toml.bool false, Toml.int 5, Toml.str ""⟩)]⟩ := rfl

/-- C8 amended: a TOML-parsed config lacking the required `token_command`
key fails to load (the `KeyError` is caught as a configuration error), the
process exits 1 and issues no HTTP request — update or lookup — and no
domain is attempted.  Field types, by contrast, are not validated at load
time. -/
theorem missing_token_command_fatal (cfg : List (String × Toml))
    (hmiss : List.lookup "token_command" cfg = none)
    (oracle : Oracle) (tok : Except Unit String) (verbosity : Nat) :
    (∃ e, load_config cfg = Except.error e)
    ∧ (main cfg oracle tok verbosity).exitCode = 1
    ∧ (main cfg oracle tok verbosity).requests = []
    ∧ (main cfg oracle tok verbosity).resolverCalls = 0
    ∧ (main cfg oracle tok verbosity).attempted = [] := by
  have hload : ∃ e, load_config cfg = Except.error e := by
    rcases hdv : (List.lookup "domains" cfg).getD (Toml.table [])
      with s | b | n | xs | ds
    · exact ⟨LoadError.attrErr, by unfold load_config; rw [hdv]⟩
    · exact ⟨LoadError.attrErr, by unfold load_config; rw [hdv]⟩
    · exact ⟨LoadError.attrErr, by unfold load_config; rw [hdv]⟩
    · exact ⟨LoadError.attrErr, by unfold load_config; rw [hdv]⟩
    · rw [load_config_table_reduce cfg ds hdv]
      rcases hpd : parseDomains ds with e | doms
      · exact ⟨e, rfl⟩
      · exact ⟨LoadError.keyErr, by rw [hmiss]⟩
  obtain ⟨e, he⟩ := hload
  rw [main_load_error cfg oracle tok verbosity e he]
  exact ⟨⟨e, he⟩, rfl, rfl, rfl, rfl⟩

theorem missing_token_command_fatal_witness :
    (main [("x", Toml.int 1)] oracleW (Except.ok "t") 0).exitCode = 1
    ∧ (main [("x", Toml.int 1)] oracleW (Except.ok "t") 0).requests = [] := by
  have h := missing_token_command_fatal [("x", Toml.int 1)] rfl oracleW
    (Except.ok "t") 0
  exact ⟨h.2.1, h.2.2.1⟩

end Dduckdns
